import Mathlib

/-!
Verification development for the mpris-controller library (src/src/lib.rs).

The Lean definitions below are a shallow embedding of the library's data
model and reconciliation logic:

* `Value` models `zbus::zvariant::Value` restricted to the constructors the
  library ever matches on (`Str`, `ObjectPath`, `Bool`, `I32`, `I64`, `U64`,
  `F64`, `Array`, `Dict`).  File-descriptor values never occur, so
  `try_clone` always succeeds and is omitted from the model.
* `f64` payloads are never computed with by the library (they are stored
  verbatim), so they are modelled by the opaque token type `F64` with
  decidable equality.
* An attribute map (`HashMap<String, Value>` on the Rust side) is modelled
  as an association list with `List.lookup`; D-Bus dictionaries have unique
  keys.
* Fallible Rust code (`anyhow::Result`) is modelled with `Except
  DecodeError`; the error constructor chosen for each code path follows the
  condition that triggers it (key absent vs. key present with a wrong
  underlying type vs. unmatched enum string), which is the taxonomy the
  specification assigns to the library's error strings.
* `u64` is modelled as `Nat`, `i64`/`i32` as `Int`; the Rust cast
  `i as u64` is two's-complement, i.e. reduction modulo 2^64.
-/

/-- Opaque stand-in for an `f64` payload: the library only stores such
values, never computes with them. -/
structure F64 where
  bits : Nat
deriving DecidableEq, Repr

/-- The subset of `zbus::zvariant::Value` the library matches on. -/
inductive Value where
  | str (s : String)
  | objectPath (s : String)
  | bool (b : Bool)
  | i32 (i : Int)
  | i64 (i : Int)
  | u64 (n : Nat)
  | f64 (x : F64)
  | array (vs : List Value)
  | dict (entries : List (String × Value))

/-- An attribute map: `HashMap<String, Value>` as an association list. -/
abbrev AttrMap := List (String × Value)

/-- The specification's decode-failure taxonomy for the library's
`anyhow` decode errors. -/
inductive DecodeError where
  | missingField (key : String)
  | typeMismatch (key : String)
  | invalidEnum (field : String) (raw : String)
deriving DecidableEq, Repr

/-- `enum PlaybackStatus` from the source. -/
inductive PlaybackStatus where
  | Stopped
  | Paused
  | Playing
deriving DecidableEq, Repr

/-- `enum LoopStatus` from the source. -/
inductive LoopStatus where
  | None
  | Playlist
  | Track
deriving DecidableEq, Repr

/-- `struct Metadata` from the source (field order preserved). -/
structure Metadata where
  art_url : Option String
  length : Option Nat
  trackid : String
  album : Option String
  artists : List String
  title : String
  url : String
  track_number : Option Int
  disc_number : Option Int
  auto_rating : Option F64
  album_artists : Option (List String)
deriving DecidableEq, Repr

/-- `struct PlayerCapabilities` from the source (field order preserved). -/
structure PlayerCapabilities where
  can_control : Bool
  can_next : Bool
  can_previous : Bool
  can_pause : Bool
  can_play : Bool
  can_seek : Bool
  loop_status : Option LoopStatus
  max_rate : Option F64
  min_rate : Option F64
  metadata : Metadata
  playback_status : PlaybackStatus
  position : Nat
  rate : F64
  shuffle : Option Bool
  volume : Option F64
deriving DecidableEq, Repr

/-- Sequencing of fallible decode steps; the `?` operator of the Rust
decoders. -/
def andThen (x : Except DecodeError α) (f : α → Except DecodeError β) :
    Except DecodeError β :=
  match x with
  | .error e => .error e
  | .ok a => f a

/-- A required attribute: `value.get(key).ok_or(anyhow!(..))?` followed by a
conversion of the found value. -/
def reqField (key : String) (conv : Value → Except DecodeError α)
    (m : AttrMap) : Except DecodeError α :=
  match m.lookup key with
  | none => .error (.missingField key)
  | some v => conv v

/-- An optional attribute: `value.get(key).map(TryInto::try_into).transpose()?`
-- absent keys decode to `none`, present keys must convert. -/
def optField (key : String) (conv : Value → Except DecodeError α)
    (m : AttrMap) : Except DecodeError (Option α) :=
  match m.lookup key with
  | none => .ok none
  | some v =>
    match conv v with
    | .ok a => .ok (some a)
    | .error e => .error e

/-- `TryFrom<&Value> for bool` (zvariant): only `Value::Bool` converts. -/
def convBool (key : String) : Value → Except DecodeError Bool
  | .bool b => .ok b
  | _ => .error (.typeMismatch key)

/-- `TryFrom<&Value> for f64` (zvariant): only `Value::F64` converts. -/
def convF64 (key : String) : Value → Except DecodeError F64
  | .f64 x => .ok x
  | _ => .error (.typeMismatch key)

/-- `TryFrom<&Value> for String` (zvariant): only `Value::Str` converts. -/
def convStr (key : String) : Value → Except DecodeError String
  | .str s => .ok s
  | _ => .error (.typeMismatch key)

/-- `TryFrom<&Value> for PlaybackStatus` from the source: a fixed string
vocabulary, everything else is a decode error. -/
def convPlayback : Value → Except DecodeError PlaybackStatus
  | .str "Stopped" => .ok .Stopped
  | .str "Paused" => .ok .Paused
  | .str "Playing" => .ok .Playing
  | .str s => .error (.invalidEnum "PlaybackStatus" s)
  | _ => .error (.typeMismatch "PlaybackStatus")

/-- `TryFrom<&Value> for LoopStatus` from the source. -/
def convLoop : Value → Except DecodeError LoopStatus
  | .str "None" => .ok .None
  | .str "Playlist" => .ok .Playlist
  | .str "Track" => .ok .Track
  | .str s => .error (.invalidEnum "LoopStatus" s)
  | _ => .error (.typeMismatch "LoopStatus")

/-- The Rust cast `i as u64` for `i : i64`: two's-complement reduction
modulo `2^64`. -/
def i64AsU64 (i : Int) : Nat :=
  (i % 18446744073709551616).toNat

/-- The `mpris:length` conversion: both `I64` (cast) and `U64` accepted. -/
def convLength : Value → Except DecodeError Nat
  | .i64 i => .ok (i64AsU64 i)
  | .u64 n => .ok n
  | _ => .error (.typeMismatch "mpris:length")

/-- The `Position` conversion: both `U64` and `I64` (cast) accepted. -/
def convPosition : Value → Except DecodeError Nat
  | .u64 n => .ok n
  | .i64 i => .ok (i64AsU64 i)
  | _ => .error (.typeMismatch "Position")

/-- The `mpris:trackid` conversion: `ObjectPath` or plain `Str`, verbatim.
The source reports absence and wrong type with the same message
("failed to find mpris:trackid"); the model separates the two conditions
into the specification's two error kinds. -/
def convTrackid : Value → Except DecodeError String
  | .objectPath s => .ok s
  | .str s => .ok s
  | _ => .error (.typeMismatch "mpris:trackid")

/-- `TryFrom<&Value> for i32` (zvariant), used for track/disc numbers. -/
def convI32 (key : String) : Value → Except DecodeError Int
  | .i32 i => .ok i
  | _ => .error (.typeMismatch key)

/-- Element-wise conversion of an array to strings; any non-string element
fails (zvariant `TryFrom<Value> for Vec<String>`). -/
def strElems (key : String) : List Value → Except DecodeError (List String)
  | [] => .ok []
  | .str s :: rest =>
    match strElems key rest with
    | .ok l => .ok (s :: l)
    | .error e => .error e
  | _ :: _ => .error (.typeMismatch key)

/-- `TryFrom<&Value> for Vec<String>`: only arrays of strings convert. -/
def convStrList (key : String) : Value → Except DecodeError (List String)
  | .array vs => strElems key vs
  | _ => .error (.typeMismatch key)

/-- The string elements of a value list, silently dropping every non-string
element (the `filter_map` in the `xesam:albumArtist` branch). -/
def strOnly : List Value → List String
  | [] => []
  | .str s :: rest => s :: strOnly rest
  | _ :: rest => strOnly rest

/-- The `xesam:albumArtist` branch of the metadata decoder: an array value
yields its string elements, anything else (absent or wrong-typed) yields
`none` without error. -/
def albumArtistsOf (m : AttrMap) : Option (List String) :=
  match m.lookup "xesam:albumArtist" with
  | some (.array vs) => some (strOnly vs)
  | _ => none

/-- `TryFrom<HashMap<String, Value>> for Metadata` from the source, field
by field in source order. -/
def decodeMetadata (m : AttrMap) : Except DecodeError Metadata :=
  andThen (optField "mpris:artUrl" (convStr "mpris:artUrl") m) fun art_url =>
  andThen (optField "mpris:length" convLength m) fun length =>
  andThen (reqField "mpris:trackid" convTrackid m) fun trackid =>
  andThen (optField "xesam:album" (convStr "xesam:album") m) fun album =>
  andThen (reqField "xesam:artist" (convStrList "xesam:artist") m) fun artists =>
  andThen (reqField "xesam:title" (convStr "xesam:title") m) fun title =>
  andThen (reqField "xesam:url" (convStr "xesam:url") m) fun url =>
  let album_artists := albumArtistsOf m
  andThen (optField "xesam:trackNumber" (convI32 "xesam:trackNumber") m) fun track_number =>
  andThen (optField "xesam:discNumber" (convI32 "xesam:discNumber") m) fun disc_number =>
  andThen (optField "xesam:autoRating" (convF64 "xesam:autoRating") m) fun auto_rating =>
  .ok { art_url := art_url, length := length, trackid := trackid,
        album := album, artists := artists, title := title, url := url,
        track_number := track_number, disc_number := disc_number,
        auto_rating := auto_rating, album_artists := album_artists }

/-- The `Metadata` attribute conversion of the capability decoder: the value
must be a dictionary, which is then decoded as a metadata map. -/
def convMetadataDict : Value → Except DecodeError Metadata
  | .dict d => decodeMetadata d
  | _ => .error (.typeMismatch "Metadata")

/-- `TryFrom<HashMap<&str, Value>> for PlayerCapabilities` from the source,
field by field in source order. -/
def decodeCaps (m : AttrMap) : Except DecodeError PlayerCapabilities :=
  andThen (reqField "CanControl" (convBool "CanControl") m) fun can_control =>
  andThen (reqField "CanGoNext" (convBool "CanGoNext") m) fun can_next =>
  andThen (reqField "CanGoPrevious" (convBool "CanGoPrevious") m) fun can_previous =>
  andThen (reqField "CanPause" (convBool "CanPause") m) fun can_pause =>
  andThen (reqField "CanPlay" (convBool "CanPlay") m) fun can_play =>
  andThen (reqField "CanSeek" (convBool "CanSeek") m) fun can_seek =>
  andThen (optField "Shuffle" (convBool "Shuffle") m) fun shuffle =>
  andThen (optField "LoopStatus" convLoop m) fun loop_status =>
  andThen (optField "MaximumRate" (convF64 "MaximumRate") m) fun max_rate =>
  andThen (optField "MinimumRate" (convF64 "MinimumRate") m) fun min_rate =>
  andThen (reqField "Metadata" convMetadataDict m) fun metadata =>
  andThen (reqField "Rate" (convF64 "Rate") m) fun rate =>
  andThen (reqField "PlaybackStatus" convPlayback m) fun playback_status =>
  andThen (reqField "Position" convPosition m) fun position =>
  andThen (optField "Volume" (convF64 "Volume") m) fun volume =>
  .ok { can_control := can_control, can_next := can_next,
        can_previous := can_previous, can_pause := can_pause,
        can_play := can_play, can_seek := can_seek,
        loop_status := loop_status, max_rate := max_rate,
        min_rate := min_rate, metadata := metadata,
        playback_status := playback_status, position := position,
        rate := rate, shuffle := shuffle, volume := volume }

/-- `enum NameOwnerChanged` from the source. -/
inductive NameOwnerChanged where
  | NewPlayer
  | RemovedPlayer
deriving DecidableEq, Repr

/-- `enum PlayerUpdated` from the source. -/
inductive PlayerUpdated where
  | PlaybackStatus
  | Metadata
  | CanGoPrevious
deriving DecidableEq, Repr

/-- `enum MprisEvent` from the source. -/
inductive MprisEvent where
  | NameOwnerChanged (ev : NameOwnerChanged)
  | PlayerUpdated (ev : PlayerUpdated)
deriving DecidableEq, Repr

/-- A ready `PropertiesChanged` notification: interface name and changed
map (the invalidated list is never used by the library). -/
structure PropMsg where
  iface : String
  changed : AttrMap

/-- `struct Player`: a capability snapshot plus its signal stream, the
stream modelled as the list of ready-but-unconsumed notifications. -/
structure Player where
  capabilities : PlayerCapabilities
  stream : List PropMsg

/-- The registry type of `MprisClient.players`:
`HashMap<String, Option<Player>>`. -/
abbrev Registry := List (String × Option Player)

/-- `HashMap::insert`: a new binding replaces any existing binding of the
same key. -/
def insertReg (name : String) (p : Option Player) (r : Registry) : Registry :=
  (name, p) :: r.filter (fun q => q.1 != name)

/-- `HashMap::remove` plus the presence flag: the specification's
`remove(name) -> bool`. -/
def removeReg (name : String) (r : Registry) : Bool × Registry :=
  ((r.lookup name).isSome, r.filter (fun q => q.1 != name))

/-- The constant `MPRIS_PREFIX` from the source
(the media-player bus-name namespace). -/
def mprisNs : String := "org.mpris.MediaPlayer2"

/-- `name.starts_with(MPRIS_PREFIX)`. -/
def isMprisName (name : String) : Bool :=
  mprisNs.data.isPrefixOf name.data

/-- A ready `NameOwnerChanged` notification: `(name, old_owner, new_owner)`. -/
abbrev OwnerMsg := String × String × String

/-- `struct MprisClient`: the registry plus the bus-wide ownership signal
stream, the stream modelled as the list of ready-but-unconsumed
notifications. -/
structure MprisClient where
  players : Registry
  ownerQueue : List OwnerMsg

/-- The bus collaborator as seen by the discovery path: whether the
per-endpoint signal subscription succeeds, and the attribute map returned
by the `GetAll` call (`none` = transport failure). -/
structure World where
  sub : String → Bool
  attrs : String → Option AttrMap

/-- Result of processing one property-change notification for one player,
i.e. the body of the loop in `handle_players_changed`:
`panics` models the `unwrap()` calls on decode failures,
`event` is an early `return Some(..)` with the (possibly updated) snapshot,
`abort` is the early `return None` taken via `.ok()?` when the metadata
dictionary fails to decode, and `nomatch` means no recognized key was
present so the loop continues. -/
inductive DeltaResult where
  | panics
  | event (caps : PlayerCapabilities) (ev : MprisEvent)
  | abort (caps : PlayerCapabilities)
  | nomatch (caps : PlayerCapabilities)

/-- The per-notification reconciliation of `handle_players_changed`
(source lines 755-775): check `PlaybackStatus`, then `Metadata`, then
`CanGoPrevious`; return on the first key found.  A decoded metadata value
is only printed by the source, never written to the snapshot. -/
def applyChanged (caps : PlayerCapabilities) (changed : AttrMap) : DeltaResult :=
  match changed.lookup "PlaybackStatus" with
  | some v =>
    match convPlayback v with
    | .ok s => .event { caps with playback_status := s } (.PlayerUpdated .PlaybackStatus)
    | .error _ => .panics
  | none =>
  match changed.lookup "Metadata" with
  | some v =>
    match v with
    | .dict d =>
      match decodeMetadata d with
      | .ok _ => .event caps (.PlayerUpdated .Metadata)
      | .error _ => .abort caps
    | _ => .event caps (.PlayerUpdated .Metadata)
  | none =>
  match changed.lookup "CanGoPrevious" with
  | some v =>
    match convBool "CanGoPrevious" v with
    | .ok b => .event { caps with can_previous := b } (.PlayerUpdated .CanGoPrevious)
    | .error _ => .panics
  | none => .nomatch caps

/-- Outcome of a whole `handle_players_changed` / `event` call. -/
inductive EventResult where
  | panics
  | out (st : MprisClient) (ev : Option MprisEvent)

/-- Outcome of the player iteration of `handle_players_changed`. -/
inductive LoopResult where
  | panics
  | out (players : Registry) (ev : Option MprisEvent)

/-- The iteration of `handle_players_changed` over the registry: skip
absent players and players with no ready notification; on a ready
notification apply `applyChanged`, returning on an event or on the
metadata-failure early `return None`, continuing otherwise. -/
def playersLoop : Registry → LoopResult
  | [] => .out [] none
  | (n, none) :: rest =>
    match playersLoop rest with
    | .panics => .panics
    | .out ps ev => .out ((n, none) :: ps) ev
  | (n, some p) :: rest =>
    match p.stream with
    | [] =>
      match playersLoop rest with
      | .panics => .panics
      | .out ps ev => .out ((n, some p) :: ps) ev
    | msg :: msgs =>
      match applyChanged p.capabilities msg.changed with
      | .panics => .panics
      | .event caps ev => .out ((n, some ⟨caps, msgs⟩) :: rest) (some ev)
      | .abort caps => .out ((n, some ⟨caps, msgs⟩) :: rest) none
      | .nomatch caps =>
        match playersLoop rest with
        | .panics => .panics
        | .out ps ev => .out ((n, some ⟨caps, msgs⟩) :: ps) ev

/-- `MprisClient::handle_players_changed`. -/
def MprisClient.handlePlayersChanged (st : MprisClient) : EventResult :=
  match playersLoop st.players with
  | .panics => .panics
  | .out ps ev => .out ⟨ps, st.ownerQueue⟩ ev

/-- Outcome of `MprisClient::handle_owner_changed`:
`ready` is `Ok(Poll::Ready(ev))`, `pending` is `Ok(Poll::Pending)`, and
`failed` is an `Err(..)` propagated by `?` (failed subscription, transport
failure or decode failure while building the new player). -/
inductive OwnerOutcome where
  | ready (ev : NameOwnerChanged) (st : MprisClient)
  | pending (st : MprisClient)
  | failed (st : MprisClient)

/-- `MprisClient::handle_owner_changed` (source lines 656-694): consume one
ready ownership notification; for a media-player name, an empty-to-owned
transition builds and inserts a player (subscription first, then
attribute fetch and decode), an owned-to-empty transition removes the
name and reports `RemovedPlayer` whether or not the name was present. -/
def MprisClient.handleOwnerChanged (w : World) (st : MprisClient) : OwnerOutcome :=
  match st.ownerQueue with
  | [] => .pending st
  | (name, oldOwner, newOwner) :: rest =>
    if isMprisName name then
      match oldOwner == "", newOwner == "" with
      | true, false =>
        if w.sub name then
          match w.attrs name with
          | some m =>
            match decodeCaps m with
            | .ok caps =>
              .ready .NewPlayer ⟨insertReg name (some ⟨caps, []⟩) st.players, rest⟩
            | .error _ => .failed ⟨st.players, rest⟩
          | none => .failed ⟨st.players, rest⟩
        else .failed ⟨st.players, rest⟩
      | false, true =>
        .ready .RemovedPlayer ⟨(removeReg name st.players).2, rest⟩
      | _, _ => .pending ⟨st.players, rest⟩
    else .pending ⟨st.players, rest⟩

/-- `MprisClient::event` (source lines 782-793): poll the property-change
feeds first; only when they yield no event, poll the ownership feed.  An
`Err` from the ownership handler is discarded (`if let Ok(..)`), yielding
no event. -/
def MprisClient.event (w : World) (st : MprisClient) : EventResult :=
  match st.handlePlayersChanged with
  | .panics => .panics
  | .out st2 (some ev) => .out st2 (some ev)
  | .out st2 none =>
    match st2.handleOwnerChanged w with
    | .ready ev st3 => .out st3 (some (.NameOwnerChanged ev))
    | .pending st3 => .out st3 none
    | .failed st3 => .out st3 none

/-- `MprisClient::add` (source lines 604-615): subscribe first, then fetch
and decode the full attribute map, and only then insert; any failure
leaves the registry untouched.  The returned flag is `Ok`/`Err`. -/
def MprisClient.add (subOk : Bool) (attrs : Option AttrMap) (name : String)
    (players : Registry) : Registry × Bool :=
  if subOk then
    match attrs with
    | some m =>
      match decodeCaps m with
      | .ok caps => (insertReg name (some ⟨caps, []⟩) players, true)
      | .error _ => (players, false)
    | none => (players, false)
  else (players, false)

theorem ok_andThen (a : α) (f : α → Except DecodeError β) :
    andThen (.ok a) f = f a := rfl

theorem error_andThen (e : DecodeError) (f : α → Except DecodeError β) :
    andThen (.error e) f = .error e := rfl

theorem andThen_ok_elim {x : Except DecodeError α} {f : α → Except DecodeError β}
    {c : β} (h : andThen x f = .ok c) : ∃ a, x = .ok a ∧ f a = .ok c := by
  cases x with
  | error e => exact absurd h (by simp [andThen])
  | ok a => exact ⟨a, rfl, h⟩

theorem lookup_cons {β : Type} {a k : String} {v : β} {l : List (String × β)} :
    ((k, v) :: l).lookup a = cond (a == k) (some v) (l.lookup a) := by
  cases h : a == k <;> simp [List.lookup, h]

theorem lookup_cons_ne {β : Type} {a k : String} {v : β} {l : List (String × β)}
    (h : a ≠ k) : ((k, v) :: l).lookup a = l.lookup a := by
  rw [lookup_cons]
  have hb : (a == k) = false := by simpa using h
  rw [hb]
  rfl

theorem reqField_cons_ne {α : Type} {key k : String} {v : Value} {m : AttrMap}
    {conv : Value → Except DecodeError α} (h : key ≠ k) :
    reqField key conv ((k, v) :: m) = reqField key conv m := by
  unfold reqField
  rw [lookup_cons_ne h]

theorem optField_cons_ne {α : Type} {key k : String} {v : Value} {m : AttrMap}
    {conv : Value → Except DecodeError α} (h : key ≠ k) :
    optField key conv ((k, v) :: m) = optField key conv m := by
  unfold optField
  rw [lookup_cons_ne h]

theorem albumArtistsOf_cons_ne {k : String} {v : Value} {m : AttrMap}
    (h : ("xesam:albumArtist" : String) ≠ k) :
    albumArtistsOf ((k, v) :: m) = albumArtistsOf m := by
  unfold albumArtistsOf
  rw [lookup_cons_ne h]

theorem reqField_none {α : Type} {key : String} {m : AttrMap}
    {conv : Value → Except DecodeError α} (h : m.lookup key = none) :
    reqField key conv m = .error (.missingField key) := by
  unfold reqField
  rw [h]

theorem optField_none {α : Type} {key : String} {m : AttrMap}
    {conv : Value → Except DecodeError α} (h : m.lookup key = none) :
    optField key conv m = .ok none := by
  unfold optField
  rw [h]

/-- A successful full capability decode determines every field decoder's
result: each one succeeded with the corresponding field of the record. -/
theorem decodeCaps_ok_fields {m : AttrMap} {c : PlayerCapabilities}
    (h : decodeCaps m = .ok c) :
    reqField "CanControl" (convBool "CanControl") m = .ok c.can_control ∧
    reqField "CanGoNext" (convBool "CanGoNext") m = .ok c.can_next ∧
    reqField "CanGoPrevious" (convBool "CanGoPrevious") m = .ok c.can_previous ∧
    reqField "CanPause" (convBool "CanPause") m = .ok c.can_pause ∧
    reqField "CanPlay" (convBool "CanPlay") m = .ok c.can_play ∧
    reqField "CanSeek" (convBool "CanSeek") m = .ok c.can_seek ∧
    optField "Shuffle" (convBool "Shuffle") m = .ok c.shuffle ∧
    optField "LoopStatus" convLoop m = .ok c.loop_status ∧
    optField "MaximumRate" (convF64 "MaximumRate") m = .ok c.max_rate ∧
    optField "MinimumRate" (convF64 "MinimumRate") m = .ok c.min_rate ∧
    reqField "Metadata" convMetadataDict m = .ok c.metadata ∧
    reqField "Rate" (convF64 "Rate") m = .ok c.rate ∧
    reqField "PlaybackStatus" convPlayback m = .ok c.playback_status ∧
    reqField "Position" convPosition m = .ok c.position ∧
    optField "Volume" (convF64 "Volume") m = .ok c.volume := by
  unfold decodeCaps at h
  obtain ⟨a1, h1, h⟩ := andThen_ok_elim h
  obtain ⟨a2, h2, h⟩ := andThen_ok_elim h
  obtain ⟨a3, h3, h⟩ := andThen_ok_elim h
  obtain ⟨a4, h4, h⟩ := andThen_ok_elim h
  obtain ⟨a5, h5, h⟩ := andThen_ok_elim h
  obtain ⟨a6, h6, h⟩ := andThen_ok_elim h
  obtain ⟨a7, h7, h⟩ := andThen_ok_elim h
  obtain ⟨a8, h8, h⟩ := andThen_ok_elim h
  obtain ⟨a9, h9, h⟩ := andThen_ok_elim h
  obtain ⟨a10, h10, h⟩ := andThen_ok_elim h
  obtain ⟨a11, h11, h⟩ := andThen_ok_elim h
  obtain ⟨a12, h12, h⟩ := andThen_ok_elim h
  obtain ⟨a13, h13, h⟩ := andThen_ok_elim h
  obtain ⟨a14, h14, h⟩ := andThen_ok_elim h
  obtain ⟨a15, h15, h⟩ := andThen_ok_elim h
  injection h with h
  subst h
  exact ⟨h1, h2, h3, h4, h5, h6, h7, h8, h9, h10, h11, h12, h13, h14, h15⟩

/-- A successful metadata decode determines every field decoder's result. -/
theorem decodeMetadata_ok_fields {m : AttrMap} {c : Metadata}
    (h : decodeMetadata m = .ok c) :
    optField "mpris:artUrl" (convStr "mpris:artUrl") m = .ok c.art_url ∧
    optField "mpris:length" convLength m = .ok c.length ∧
    reqField "mpris:trackid" convTrackid m = .ok c.trackid ∧
    optField "xesam:album" (convStr "xesam:album") m = .ok c.album ∧
    reqField "xesam:artist" (convStrList "xesam:artist") m = .ok c.artists ∧
    reqField "xesam:title" (convStr "xesam:title") m = .ok c.title ∧
    reqField "xesam:url" (convStr "xesam:url") m = .ok c.url ∧
    albumArtistsOf m = c.album_artists ∧
    optField "xesam:trackNumber" (convI32 "xesam:trackNumber") m = .ok c.track_number ∧
    optField "xesam:discNumber" (convI32 "xesam:discNumber") m = .ok c.disc_number ∧
    optField "xesam:autoRating" (convF64 "xesam:autoRating") m = .ok c.auto_rating := by
  unfold decodeMetadata at h
  obtain ⟨a1, h1, h⟩ := andThen_ok_elim h
  obtain ⟨a2, h2, h⟩ := andThen_ok_elim h
  obtain ⟨a3, h3, h⟩ := andThen_ok_elim h
  obtain ⟨a4, h4, h⟩ := andThen_ok_elim h
  obtain ⟨a5, h5, h⟩ := andThen_ok_elim h
  obtain ⟨a6, h6, h⟩ := andThen_ok_elim h
  obtain ⟨a7, h7, h⟩ := andThen_ok_elim h
  obtain ⟨a8, h8, h⟩ := andThen_ok_elim h
  obtain ⟨a9, h9, h⟩ := andThen_ok_elim h
  obtain ⟨a10, h10, h⟩ := andThen_ok_elim h
  injection h with h
  subst h
  exact ⟨h1, h2, h3, h4, h5, h6, h7, rfl, h8, h9, h10⟩

theorem lookup_filter_self {β : Type} (name : String) (r : List (String × β)) :
    (r.filter (fun q => q.1 != name)).lookup name = none := by
  induction r with
  | nil => rfl
  | cons q rest ih =>
    by_cases hq : q.1 = name
    · subst hq
      simp only [List.filter_cons, bne_self_eq_false, if_neg Bool.false_ne_true]
      exact ih
    · have hb : (q.1 != name) = true := by simpa using hq
      have hstep : List.filter (fun q2 => q2.1 != name) (q :: rest) =
          q :: List.filter (fun q2 => q2.1 != name) rest := by
        simp [List.filter_cons, hb]
      rw [hstep, lookup_cons_ne (Ne.symm hq)]
      exact ih

theorem lookup_none_filter {β : Type} {name : String} {r : List (String × β)}
    (h : r.lookup name = none) : r.filter (fun q => q.1 != name) = r := by
  induction r with
  | nil => rfl
  | cons q rest ih =>
    rw [lookup_cons] at h
    cases hq : name == q.1 with
    | true => rw [hq] at h; simp at h
    | false =>
      rw [hq] at h
      have hne : q.1 ≠ name := by
        intro he
        rw [he] at hq
        simp at hq
      have hb : (q.1 != name) = true := by simpa using hne
      have hstep : List.filter (fun q2 => q2.1 != name) (q :: rest) =
          q :: List.filter (fun q2 => q2.1 != name) rest := by
        simp [List.filter_cons, hb]
      rw [hstep, ih h]

/-- A fully valid sample metadata attribute map. -/
def sampleMetaMap : AttrMap :=
  [("mpris:trackid", .objectPath "/org/mpris/track/1"),
   ("xesam:artist", .array [.str "Artist"]),
   ("xesam:title", .str "Title"),
   ("xesam:url", .str "https://x")]

/-- The record `sampleMetaMap` decodes to. -/
def sampleMetadata : Metadata :=
  { art_url := none, length := none, trackid := "/org/mpris/track/1",
    album := none, artists := ["Artist"], title := "Title",
    url := "https://x", track_number := none, disc_number := none,
    auto_rating := none, album_artists := none }

/-- A distinct metadata record used as the pre-existing snapshot content. -/
def oldMetadata : Metadata :=
  { art_url := none, length := none, trackid := "/old", album := none,
    artists := ["Old"], title := "OldTitle", url := "old://x",
    track_number := none, disc_number := none, auto_rating := none,
    album_artists := none }

/-- A concrete pre-existing capability snapshot. -/
def sampleCaps : PlayerCapabilities :=
  { can_control := true, can_next := true, can_previous := false,
    can_pause := true, can_play := true, can_seek := true,
    loop_status := none, max_rate := none, min_rate := none,
    metadata := oldMetadata, playback_status := .Playing, position := 0,
    rate := ⟨1⟩, shuffle := none, volume := none }

/-- A client with two tracked endpoints: the first has a ready notification
whose `PlaybackStatus` value has the wrong underlying type, the second a
ready well-formed notification. -/
def c1Client : MprisClient :=
  { players :=
      [("org.mpris.MediaPlayer2.a", some ⟨sampleCaps,
          [⟨"org.freedesktop.DBus.Properties", [("PlaybackStatus", .i32 42)]⟩]⟩),
       ("org.mpris.MediaPlayer2.b", some ⟨sampleCaps,
          [⟨"org.freedesktop.DBus.Properties", [("PlaybackStatus", .str "Paused")]⟩]⟩)],
    ownerQueue := [] }

/-- C1: on a changed map `{"PlaybackStatus": 42}` (wrong underlying type)
the reconciler does not reject the field and continue — the source calls
`unwrap()` on the failed decode, so the whole `handle_players_changed`
call panics, no snapshot is retained in a usable state, and the other
endpoint's ready notification is never processed. -/
theorem playback_wrong_type_panics :
    c1Client.handlePlayersChanged = .panics := rfl

/-- C3: a changed map carrying a metadata dictionary that decodes
successfully makes the reconciler emit the Metadata-updated event, but the
stored snapshot is NOT updated: the decoded record differs from the
snapshot's metadata and the snapshot comes back unchanged. -/
theorem metadata_event_without_replacement :
    decodeMetadata sampleMetaMap = .ok sampleMetadata ∧
    applyChanged sampleCaps [("Metadata", .dict sampleMetaMap)] =
      .event sampleCaps (.PlayerUpdated .Metadata) ∧
    sampleCaps.metadata ≠ sampleMetadata := by
  exact ⟨rfl, rfl, by decide⟩

/-- C6: for position and length, a signed 64-bit wire value always decodes
(never rejected for being signed-encoded) and, for equal magnitudes, the
signed and unsigned encodings normalize to the identical unsigned value. -/
theorem position_length_width_normalization :
    (∀ i : Int, convPosition (.i64 i) = .ok (i64AsU64 i) ∧
      convLength (.i64 i) = .ok (i64AsU64 i)) ∧
    (∀ n : Nat, n < 9223372036854775808 →
      convPosition (.i64 (n : Int)) = convPosition (.u64 n) ∧
      convLength (.i64 (n : Int)) = convLength (.u64 n) ∧
      convPosition (.u64 n) = .ok n ∧ convLength (.u64 n) = .ok n) := by
  constructor
  · intro i
    exact ⟨rfl, rfl⟩
  · intro n hn
    have hcast : i64AsU64 (n : Int) = n := by
      unfold i64AsU64
      omega
    exact ⟨by simp [convPosition, hcast], by simp [convLength, hcast], rfl, rfl⟩

/-- Witness for the width-normalization theorem at concrete inputs. -/
theorem position_length_width_normalization_witness :
    convPosition (.i64 (42 : Int)) = convPosition (.u64 42) ∧
    convPosition (.i64 (-1 : Int)) = .ok (i64AsU64 (-1)) := by
  exact ⟨(position_length_width_normalization.2 42 (by omega)).1,
         (position_length_width_normalization.1 (-1)).1⟩

/-- C7: a changed map that is exactly `{"PlaybackStatus": "Paused"}` yields
the PlaybackStatus-updated event and a snapshot equal to the old one with
only `playback_status` replaced — every other field, metadata included,
is carried over unchanged. -/
theorem playback_paused_frame_update (caps : PlayerCapabilities) :
    applyChanged caps [("PlaybackStatus", .str "Paused")] =
      .event { caps with playback_status := .Paused }
        (.PlayerUpdated .PlaybackStatus) := rfl

/-- C9: removing an absent name is a no-op that returns false and leaves
the registry unchanged, and a second consecutive remove of the same name
always returns false and leaves the registry unchanged. -/
theorem remove_absent_idempotent :
    (∀ (r : Registry) (name : String), r.lookup name = none →
      removeReg name r = (false, r)) ∧
    (∀ (r : Registry) (name : String),
      removeReg name (removeReg name r).2 = (false, (removeReg name r).2)) := by
  have h1 : ∀ (r : Registry) (name : String), r.lookup name = none →
      removeReg name r = (false, r) := by
    intro r name h
    unfold removeReg
    rw [h, lookup_none_filter h]
    rfl
  exact ⟨h1, fun r name => h1 _ name (lookup_filter_self name r)⟩

/-- Witness for remove-idempotence on a concrete registry. -/
theorem remove_absent_idempotent_witness :
    removeReg "org.mpris.MediaPlayer2.a" [("org.mpris.MediaPlayer2.b", (none : Option Player))] =
      (false, [("org.mpris.MediaPlayer2.b", (none : Option Player))]) :=
  remove_absent_idempotent.1 _ _ rfl

/-- C10: an ownership-change notification for a media-player name with a
non-empty old owner and empty new owner yields the RemovedPlayer event
even when the name is not tracked, and the registry is unchanged. -/
theorem removed_event_without_presence (w : World) (st : MprisClient)
    (name oldOwner : String) (rest : List OwnerMsg)
    (hq : st.ownerQueue = (name, oldOwner, "") :: rest)
    (hpfx : isMprisName name = true)
    (hold : (oldOwner == "") = false)
    (habs : st.players.lookup name = none) :
    st.handleOwnerChanged w = .ready .RemovedPlayer ⟨st.players, rest⟩ := by
  unfold MprisClient.handleOwnerChanged
  rw [hq]
  simp only [hpfx, if_true, hold]
  show OwnerOutcome.ready .RemovedPlayer ⟨(removeReg name st.players).2, rest⟩ =
    .ready .RemovedPlayer ⟨st.players, rest⟩
  unfold removeReg
  rw [lookup_none_filter habs]

/-- Witness for the removed-event theorem on a concrete client. -/
theorem removed_event_without_presence_witness :
    MprisClient.handleOwnerChanged ⟨fun _ => false, fun _ => none⟩
      ⟨[], [("org.mpris.MediaPlayer2.gone", ":1.5", "")]⟩ =
      .ready .RemovedPlayer ⟨[], []⟩ :=
  removed_event_without_presence _ _ _ _ _ rfl rfl rfl rfl

/-- A changed map with two recognized keys. -/
def twoKeyMap : AttrMap :=
  [("PlaybackStatus", .str "Paused"), ("CanGoPrevious", .bool true)]

/-- C2 counterexample: with both `PlaybackStatus` and `CanGoPrevious`
present in one changed map, the reconciler produces a single
PlaybackStatus event and never applies the `CanGoPrevious` change (the
snapshot's `can_previous` stays false) — not one event per recognized
key. -/
theorem multi_key_single_event_cex :
    applyChanged sampleCaps twoKeyMap =
      .event { sampleCaps with playback_status := .Paused }
        (.PlayerUpdated .PlaybackStatus) ∧
    (PlayerCapabilities.can_previous
      { sampleCaps with playback_status := .Paused }) = false := by
  exact ⟨rfl, rfl⟩

/-- C2 (amended): per notification the reconciler emits at most one domain
event — for the first recognized key present in the fixed check order
playback-status, metadata, can-go-previous — later recognized keys in the
same map are neither applied nor emitted, and the outcome depends only on
the map's key lookups, not on its iteration order. -/
theorem fixed_order_single_event :
    (∀ (caps : PlayerCapabilities) (m : AttrMap) (v : Value) (s : PlaybackStatus),
      m.lookup "PlaybackStatus" = some v → convPlayback v = .ok s →
      applyChanged caps m =
        .event { caps with playback_status := s } (.PlayerUpdated .PlaybackStatus)) ∧
    (∀ (caps : PlayerCapabilities) (m d : AttrMap) (md : Metadata),
      m.lookup "PlaybackStatus" = none → m.lookup "Metadata" = some (.dict d) →
      decodeMetadata d = .ok md →
      applyChanged caps m = .event caps (.PlayerUpdated .Metadata)) ∧
    (∀ (caps : PlayerCapabilities) (m : AttrMap) (b : Bool),
      m.lookup "PlaybackStatus" = none → m.lookup "Metadata" = none →
      m.lookup "CanGoPrevious" = some (.bool b) →
      applyChanged caps m =
        .event { caps with can_previous := b } (.PlayerUpdated .CanGoPrevious)) ∧
    (∀ (caps : PlayerCapabilities) (m m2 : AttrMap),
      m.lookup "PlaybackStatus" = m2.lookup "PlaybackStatus" →
      m.lookup "Metadata" = m2.lookup "Metadata" →
      m.lookup "CanGoPrevious" = m2.lookup "CanGoPrevious" →
      applyChanged caps m = applyChanged caps m2) := by
  refine ⟨?_, ?_, ?_, ?_⟩
  · intro caps m v s h1 h2
    simp only [applyChanged, h1, h2]
  · intro caps m d md h1 h2 h3
    simp only [applyChanged, h1, h2, h3]
  · intro caps m b h1 h2 h3
    simp only [applyChanged, h1, h2, h3, convBool]
  · intro caps m m2 h1 h2 h3
    unfold applyChanged
    rw [h1, h2, h3]

/-- Witness for the fixed-check-order theorem at a concrete input. -/
theorem fixed_order_single_event_witness :
    applyChanged sampleCaps [("CanGoPrevious", .bool true)] =
      .event { sampleCaps with can_previous := true }
        (.PlayerUpdated .CanGoPrevious) :=
  fixed_order_single_event.2.2.1 sampleCaps _ true rfl rfl rfl

/-- A client where both feeds hold a ready notification: a property change
for a tracked endpoint and an ownership-lost notification. -/
def bothReadyClient : MprisClient :=
  { players :=
      [("org.mpris.MediaPlayer2.a", some ⟨sampleCaps,
          [⟨"org.freedesktop.DBus.Properties", [("PlaybackStatus", .str "Paused")]⟩]⟩)],
    ownerQueue := [("org.mpris.MediaPlayer2.gone", ":1.7", "")] }

/-- C4 counterexample: when an ownership notification and a property
notification are both ready in the same poll step, `event` yields the
property-change event and leaves the ownership notification queued — the
opposite of ownership-first priority. -/
theorem property_priority_cex :
    MprisClient.event ⟨fun _ => false, fun _ => none⟩ bothReadyClient =
      .out ⟨[("org.mpris.MediaPlayer2.a", some ⟨{ sampleCaps with playback_status := .Paused }, []⟩)],
            [("org.mpris.MediaPlayer2.gone", ":1.7", "")]⟩
        (some (.PlayerUpdated .PlaybackStatus)) := rfl

/-- C4 (amended): a poll step drains property-change notifications first
and consults the ownership feed only when no property event was produced;
each call yields at most one domain event, and none when neither feed
produced one. -/
theorem players_polled_before_owner :
    (∀ (w : World) (st st2 : MprisClient) (ev : MprisEvent),
      st.handlePlayersChanged = .out st2 (some ev) →
      MprisClient.event w st = .out st2 (some ev)) ∧
    (∀ (w : World) (st st2 st3 : MprisClient) (ev : NameOwnerChanged),
      st.handlePlayersChanged = .out st2 none →
      st2.handleOwnerChanged w = .ready ev st3 →
      MprisClient.event w st = .out st3 (some (.NameOwnerChanged ev))) ∧
    (∀ (w : World) (st st2 st3 : MprisClient),
      st.handlePlayersChanged = .out st2 none →
      st2.handleOwnerChanged w = .pending st3 →
      MprisClient.event w st = .out st3 none) := by
  refine ⟨?_, ?_, ?_⟩
  · intro w st st2 ev h1
    simp only [MprisClient.event, h1]
  · intro w st st2 st3 ev h1 h2
    simp only [MprisClient.event, h1, h2]
  · intro w st st2 st3 h1 h2
    simp only [MprisClient.event, h1, h2]

/-- Witness for the polling-priority theorem: a client with neither feed
ready yields no event. -/
theorem players_polled_before_owner_witness :
    MprisClient.event ⟨fun _ => false, fun _ => none⟩ ⟨[], []⟩ =
      .out ⟨[], []⟩ none :=
  players_polled_before_owner.2.2 _ ⟨[], []⟩ ⟨[], []⟩ ⟨[], []⟩ rfl rfl

/-- The required keys of the full capability decode. -/
def requiredCapsKeys : List String :=
  ["CanControl", "CanGoNext", "CanGoPrevious", "CanPause", "CanPlay",
   "CanSeek", "Metadata", "Rate", "PlaybackStatus", "Position"]

/-- The required keys of the metadata decode. -/
def requiredMetaKeys : List String :=
  ["mpris:trackid", "xesam:artist", "xesam:title", "xesam:url"]

/-- C5: an attribute map missing a required key (and otherwise decodable)
fails full decode with `MissingField` naming that key; `add` inserts into
the registry only when both the subscription and the fetch/decode
succeed, and otherwise returns the registry unchanged. -/
theorem missing_required_key_decode_fails :
    (∀ (m : AttrMap) (k : String), k ∈ requiredCapsKeys → m.lookup k = none →
      (∃ v c, decodeCaps ((k, v) :: m) = .ok c) →
      decodeCaps m = .error (.missingField k)) ∧
    (∀ (d : AttrMap) (k : String), k ∈ requiredMetaKeys → d.lookup k = none →
      (∃ v c, decodeMetadata ((k, v) :: d) = .ok c) →
      decodeMetadata d = .error (.missingField k)) ∧
    (∀ (name : String) (m : AttrMap) (reg : Registry) (e : DecodeError),
      decodeCaps m = .error e →
      MprisClient.add true (some m) name reg = (reg, false)) ∧
    (∀ (name : String) (attrs : Option AttrMap) (reg : Registry),
      MprisClient.add false attrs name reg = (reg, false)) := by
  refine ⟨?_, ?_, ?_, ?_⟩
  · intro m k hk hnone hex
    obtain ⟨v, c, hok⟩ := hex
    obtain ⟨h1, h2, h3, h4, h5, h6, h7, h8, h9, h10, h11, h12, h13, h14, h15⟩ :=
      decodeCaps_ok_fields hok
    fin_cases hk
    · simp only [decodeCaps, reqField_none hnone, error_andThen]
    · rw [reqField_cons_ne (by decide)] at h1
      simp only [decodeCaps, h1, ok_andThen, reqField_none hnone, error_andThen]
    · rw [reqField_cons_ne (by decide)] at h1
      rw [reqField_cons_ne (by decide)] at h2
      simp only [decodeCaps, h1, h2, ok_andThen, reqField_none hnone, error_andThen]
    · rw [reqField_cons_ne (by decide)] at h1
      rw [reqField_cons_ne (by decide)] at h2
      rw [reqField_cons_ne (by decide)] at h3
      simp only [decodeCaps, h1, h2, h3, ok_andThen, reqField_none hnone, error_andThen]
    · rw [reqField_cons_ne (by decide)] at h1
      rw [reqField_cons_ne (by decide)] at h2
      rw [reqField_cons_ne (by decide)] at h3
      rw [reqField_cons_ne (by decide)] at h4
      simp only [decodeCaps, h1, h2, h3, h4, ok_andThen, reqField_none hnone,
        error_andThen]
    · rw [reqField_cons_ne (by decide)] at h1
      rw [reqField_cons_ne (by decide)] at h2
      rw [reqField_cons_ne (by decide)] at h3
      rw [reqField_cons_ne (by decide)] at h4
      rw [reqField_cons_ne (by decide)] at h5
      simp only [decodeCaps, h1, h2, h3, h4, h5, ok_andThen, reqField_none hnone,
        error_andThen]
    · rw [reqField_cons_ne (by decide)] at h1
      rw [reqField_cons_ne (by decide)] at h2
      rw [reqField_cons_ne (by decide)] at h3
      rw [reqField_cons_ne (by decide)] at h4
      rw [reqField_cons_ne (by decide)] at h5
      rw [reqField_cons_ne (by decide)] at h6
      rw [optField_cons_ne (by decide)] at h7
      rw [optField_cons_ne (by decide)] at h8
      rw [optField_cons_ne (by decide)] at h9
      rw [optField_cons_ne (by decide)] at h10
      simp only [decodeCaps, h1, h2, h3, h4, h5, h6, h7, h8, h9, h10, ok_andThen,
        reqField_none hnone, error_andThen]
    · rw [reqField_cons_ne (by decide)] at h1
      rw [reqField_cons_ne (by decide)] at h2
      rw [reqField_cons_ne (by decide)] at h3
      rw [reqField_cons_ne (by decide)] at h4
      rw [reqField_cons_ne (by decide)] at h5
      rw [reqField_cons_ne (by decide)] at h6
      rw [optField_cons_ne (by decide)] at h7
      rw [optField_cons_ne (by decide)] at h8
      rw [optField_cons_ne (by decide)] at h9
      rw [optField_cons_ne (by decide)] at h10
      rw [reqField_cons_ne (by decide)] at h11
      simp only [decodeCaps, h1, h2, h3, h4, h5, h6, h7, h8, h9, h10, h11,
        ok_andThen, reqField_none hnone, error_andThen]
    · rw [reqField_cons_ne (by decide)] at h1
      rw [reqField_cons_ne (by decide)] at h2
      rw [reqField_cons_ne (by decide)] at h3
      rw [reqField_cons_ne (by decide)] at h4
      rw [reqField_cons_ne (by decide)] at h5
      rw [reqField_cons_ne (by decide)] at h6
      rw [optField_cons_ne (by decide)] at h7
      rw [optField_cons_ne (by decide)] at h8
      rw [optField_cons_ne (by decide)] at h9
      rw [optField_cons_ne (by decide)] at h10
      rw [reqField_cons_ne (by decide)] at h11
      rw [reqField_cons_ne (by decide)] at h12
      simp only [decodeCaps, h1, h2, h3, h4, h5, h6, h7, h8, h9, h10, h11, h12,
        ok_andThen, reqField_none hnone, error_andThen]
    · rw [reqField_cons_ne (by decide)] at h1
      rw [reqField_cons_ne (by decide)] at h2
      rw [reqField_cons_ne (by decide)] at h3
      rw [reqField_cons_ne (by decide)] at h4
      rw [reqField_cons_ne (by decide)] at h5
      rw [reqField_cons_ne (by decide)] at h6
      rw [optField_cons_ne (by decide)] at h7
      rw [optField_cons_ne (by decide)] at h8
      rw [optField_cons_ne (by decide)] at h9
      rw [optField_cons_ne (by decide)] at h10
      rw [reqField_cons_ne (by decide)] at h11
      rw [reqField_cons_ne (by decide)] at h12
      rw [reqField_cons_ne (by decide)] at h13
      simp only [decodeCaps, h1, h2, h3, h4, h5, h6, h7, h8, h9, h10, h11, h12,
        h13, ok_andThen, reqField_none hnone, error_andThen]
  · intro d k hk hnone hex
    obtain ⟨v, c, hok⟩ := hex
    obtain ⟨h1, h2, h3, h4, h5, h6, h7, h8, h9, h10, h11⟩ :=
      decodeMetadata_ok_fields hok
    fin_cases hk
    · rw [optField_cons_ne (by decide)] at h1
      rw [optField_cons_ne (by decide)] at h2
      simp only [decodeMetadata, h1, h2, ok_andThen, reqField_none hnone,
        error_andThen]
    · rw [optField_cons_ne (by decide)] at h1
      rw [optField_cons_ne (by decide)] at h2
      rw [reqField_cons_ne (by decide)] at h3
      rw [optField_cons_ne (by decide)] at h4
      simp only [decodeMetadata, h1, h2, h3, h4, ok_andThen, reqField_none hnone,
        error_andThen]
    · rw [optField_cons_ne (by decide)] at h1
      rw [optField_cons_ne (by decide)] at h2
      rw [reqField_cons_ne (by decide)] at h3
      rw [optField_cons_ne (by decide)] at h4
      rw [reqField_cons_ne (by decide)] at h5
      simp only [decodeMetadata, h1, h2, h3, h4, h5, ok_andThen,
        reqField_none hnone, error_andThen]
    · rw [optField_cons_ne (by decide)] at h1
      rw [optField_cons_ne (by decide)] at h2
      rw [reqField_cons_ne (by decide)] at h3
      rw [optField_cons_ne (by decide)] at h4
      rw [reqField_cons_ne (by decide)] at h5
      rw [reqField_cons_ne (by decide)] at h6
      simp only [decodeMetadata, h1, h2, h3, h4, h5, h6, ok_andThen,
        reqField_none hnone, error_andThen]
  · intro name m reg e h
    simp [MprisClient.add, h]
  · intro name attrs reg
    simp [MprisClient.add]

/-- A valid capability map except that `Rate` is absent. -/
def capsMapMissingRate : AttrMap :=
  [("CanControl", .bool true), ("CanGoNext", .bool true),
   ("CanGoPrevious", .bool false), ("CanPause", .bool true),
   ("CanPlay", .bool true), ("CanSeek", .bool true),
   ("Metadata", .dict sampleMetaMap), ("PlaybackStatus", .str "Playing"),
   ("Position", .u64 5)]

/-- Witness for the missing-required-key theorem at a concrete map. -/
theorem missing_required_key_decode_fails_witness :
    decodeCaps capsMapMissingRate = .error (.missingField "Rate") :=
  missing_required_key_decode_fails.1 capsMapMissingRate "Rate" (by decide) rfl
    ⟨.f64 ⟨1⟩, _, rfl⟩

theorem convI32_not_i32 {key : String} {v : Value} (h : ∀ i, v ≠ .i32 i) :
    convI32 key v = .error (.typeMismatch key) := by
  cases v <;> first | rfl | exact absurd rfl (h _)

theorem convF64_not_f64 {key : String} {v : Value} (h : ∀ x, v ≠ .f64 x) :
    convF64 key v = .error (.typeMismatch key) := by
  cases v <;> first | rfl | exact absurd rfl (h _)

theorem optField_some_error {α : Type} {key : String} {m : AttrMap} {v : Value}
    {e : DecodeError} {conv : Value → Except DecodeError α}
    (hl : m.lookup key = some v) (hc : conv v = .error e) :
    optField key conv m = .error e := by
  unfold optField
  simp only [hl, hc]

theorem albumArtistsOf_none {m : AttrMap}
    (h : m.lookup "xesam:albumArtist" = none) : albumArtistsOf m = none := by
  unfold albumArtistsOf
  rw [h]

theorem albumArtistsOf_not_array {m : AttrMap} {v : Value}
    (hl : m.lookup "xesam:albumArtist" = some v) (h : ∀ vs, v ≠ .array vs) :
    albumArtistsOf m = none := by
  unfold albumArtistsOf
  rw [hl]
  cases v <;> first | rfl | exact absurd rfl (h _)

/-- The sample metadata map with a wrong-typed `xesam:albumArtist` value. -/
def metaMapBadAlbumArtist : AttrMap :=
  sampleMetaMap ++ [("xesam:albumArtist", .i32 7)]

/-- C8 counterexample: `xesam:albumArtist` present with a wrong underlying
type is NOT rejected with TypeMismatch — the decode succeeds and the
field is silently coerced to unset. -/
theorem albumartist_wrong_type_cex :
    decodeMetadata metaMapBadAlbumArtist = .ok sampleMetadata ∧
    sampleMetadata.album_artists = none := ⟨rfl, rfl⟩

/-- C8 (amended): absent `xesam:trackNumber`/`xesam:discNumber`/
`xesam:autoRating`/`xesam:albumArtist` keys decode to unset; a
present-but-wrong-typed value for the first three makes the whole decode
fail, with the conversion reporting TypeMismatch naming the key; but a
present-but-non-array `xesam:albumArtist` is silently treated as unset
rather than rejected. -/
theorem optional_fields_unset_or_mismatch :
    (∀ (d : AttrMap) (c : Metadata), decodeMetadata d = .ok c →
      (d.lookup "xesam:trackNumber" = none → c.track_number = none) ∧
      (d.lookup "xesam:discNumber" = none → c.disc_number = none) ∧
      (d.lookup "xesam:autoRating" = none → c.auto_rating = none) ∧
      (d.lookup "xesam:albumArtist" = none → c.album_artists = none)) ∧
    (∀ (d : AttrMap) (v : Value) (c : Metadata),
      d.lookup "xesam:trackNumber" = some v → (∀ i, v ≠ .i32 i) →
      convI32 "xesam:trackNumber" v = .error (.typeMismatch "xesam:trackNumber") ∧
      decodeMetadata d ≠ .ok c) ∧
    (∀ (d : AttrMap) (v : Value) (c : Metadata),
      d.lookup "xesam:discNumber" = some v → (∀ i, v ≠ .i32 i) →
      convI32 "xesam:discNumber" v = .error (.typeMismatch "xesam:discNumber") ∧
      decodeMetadata d ≠ .ok c) ∧
    (∀ (d : AttrMap) (v : Value) (c : Metadata),
      d.lookup "xesam:autoRating" = some v → (∀ x, v ≠ .f64 x) →
      convF64 "xesam:autoRating" v = .error (.typeMismatch "xesam:autoRating") ∧
      decodeMetadata d ≠ .ok c) ∧
    (∀ (d : AttrMap) (v : Value) (c : Metadata),
      d.lookup "xesam:albumArtist" = some v → (∀ vs, v ≠ .array vs) →
      decodeMetadata d = .ok c → c.album_artists = none) := by
  refine ⟨?_, ?_, ?_, ?_, ?_⟩
  · intro d c hok
    obtain ⟨h1, h2, h3, h4, h5, h6, h7, h8, h9, h10, h11⟩ :=
      decodeMetadata_ok_fields hok
    refine ⟨fun hn => ?_, fun hn => ?_, fun hn => ?_, fun hn => ?_⟩
    · have := (optField_none hn).symm.trans h9
      injection this with this
      exact this.symm
    · have := (optField_none hn).symm.trans h10
      injection this with this
      exact this.symm
    · have := (optField_none hn).symm.trans h11
      injection this with this
      exact this.symm
    · exact ((albumArtistsOf_none hn).symm.trans h8).symm
  · intro d v c hl hne
    refine ⟨convI32_not_i32 hne, fun hok => ?_⟩
    obtain ⟨-, -, -, -, -, -, -, -, h9, -⟩ := decodeMetadata_ok_fields hok
    rw [optField_some_error hl (convI32_not_i32 hne)] at h9
    cases h9
  · intro d v c hl hne
    refine ⟨convI32_not_i32 hne, fun hok => ?_⟩
    obtain ⟨-, -, -, -, -, -, -, -, -, h10, -⟩ := decodeMetadata_ok_fields hok
    rw [optField_some_error hl (convI32_not_i32 hne)] at h10
    cases h10
  · intro d v c hl hne
    refine ⟨convF64_not_f64 hne, fun hok => ?_⟩
    obtain ⟨-, -, -, -, -, -, -, -, -, -, h11⟩ := decodeMetadata_ok_fields hok
    rw [optField_some_error hl (convF64_not_f64 hne)] at h11
    cases h11
  · intro d v c hl hne hok
    obtain ⟨-, -, -, -, -, -, -, h8, -⟩ := decodeMetadata_ok_fields hok
    exact ((albumArtistsOf_not_array hl hne).symm.trans h8).symm

/-- Witness for the optional-field theorem at concrete inputs. -/
theorem optional_fields_unset_or_mismatch_witness :
    convI32 "xesam:trackNumber" (.str "x") =
      .error (.typeMismatch "xesam:trackNumber") ∧
    decodeMetadata (("xesam:trackNumber", Value.str "x") :: sampleMetaMap) ≠
      .ok sampleMetadata :=
  optional_fields_unset_or_mismatch.2.1
    (("xesam:trackNumber", Value.str "x") :: sampleMetaMap) (.str "x")
    sampleMetadata rfl (fun _ h => nomatch h)
